import Mathlib

/-!
Verification development for the aws-overview terminal dashboard.

The core under study is the single-threaded bubbletea state machine in
`internal/ui` (`Model`, `NewModel`, `Init`, `Update`, the render helpers and
the fetch commands in `commands.go`), plus the parallel fan-out fetcher
`alb.Client.GetLoadBalancers` in `pkg/alb`.

Embedding conventions:
- Go slices become `List`, Go `error` becomes `Option String` (`none` = nil),
  fallible operations return `Except String`.
- Go `int` becomes `Int` where negative values matter (window geometry) and
  `Nat` where the source maintains non-negativity (`activeTab`, which starts
  at 0 and is only updated modulo the tab count).
- The presentation collaborators that the spec declares out of scope
  (lipgloss styling, the spinner glyph, the per-family one-line summary and
  detail formatters, the wall clock and the AWS profile environment lookup)
  are abstracted: styling is the identity on text content, and the pure
  formatter functions together with the profile string and clock are passed
  in an `Env` record. The structure of every function (its conditionals,
  the order of concatenation, the literal text it adds) is taken from the
  source.
- Record payload types keep their source fields; fields of type `float64`
  series, `time.Time` or `map` (sparkline data, timestamps, tags) belong to
  the out-of-scope formatting layer, are never read by the embedded core,
  and are omitted from the pass-through payload structures.
- Concurrent fan-out in `GetLoadBalancers` is modelled under deterministic
  sequential scheduling: goroutines complete in launch order, so a buffered
  channel receives values in that order. "First error" below means first in
  that order.
-/

/-- TargetSummary from pkg/alb (part_010): one target of a target group. -/
structure TargetSummary where
  ID : String
  Port : Int
  Status : String
  Reason : String
deriving DecidableEq

/-- TargetGroupSummary from pkg/alb (part_010). -/
structure TargetGroupSummary where
  Name : String
  ARN : String
  Targets : List TargetSummary
deriving DecidableEq

/-- LoadBalancerSummary from pkg/alb (part_010). -/
structure LoadBalancerSummary where
  Name : String
  DNSName : String
  TargetGroups : List TargetGroupSummary
deriving DecidableEq

/-- DBInstanceSummary from pkg/rds (part_011); the float64 sparkline series
CPUData and MemoryData are omitted (never read by the embedded core). -/
structure DBInstanceSummary where
  Identifier : String
  Engine : String
  Status : String
  Endpoint : String
  RecentErrors : List String
deriving DecidableEq

/-- InstanceSummary from pkg/ec2 (part_007); LaunchTime and Tags are
omitted (never read by the embedded core). -/
structure InstanceSummary where
  InstanceID : String
  InstanceType : String
  State : String
  Name : String
  PrivateIP : String
  PublicIP : String
  Platform : String
  VpcID : String
  SubnetID : String
  SecurityGroups : List String
  AvailabilityZone : String
deriving DecidableEq

/-- ServiceSummary from pkg/ecs; CreatedAt and Tags are omitted (never read
by the embedded core). -/
structure ServiceSummary where
  ServiceName : String
  ClusterName : String
  Status : String
  DesiredCount : Int
  RunningCount : Int
  PendingCount : Int
  TaskDefinition : String
  LaunchType : String
  HealthStatus : String
  DeploymentStatus : String
  NetworkMode : String
deriving DecidableEq

/-- QueueSummary from pkg/sqs/sqs.go; the float64 metric series are
omitted (never read by the embedded core); the source field named Type
(Standard or FIFO) is spelled QueueType because Type is reserved here. -/
structure QueueSummary where
  Name : String
  QueueType : String
deriving DecidableEq

/-- Pure formatter interface of the render layer (spec section 6:
summarize and formatDetail per family); external collaborators of the
core, passed in as opaque pure functions. -/
structure Formatters where
  GetLoadBalancersSummary : List LoadBalancerSummary → String
  FormatLoadBalancers : List LoadBalancerSummary → String
  GetDBInstancesSummary : List DBInstanceSummary → String
  FormatDBInstances : List DBInstanceSummary → String
  GetInstancesSummary : List InstanceSummary → String
  FormatInstances : List InstanceSummary → String
  GetServicesSummary : List ServiceSummary → String
  FormatServices : List ServiceSummary → String
  GetQueuesSummary : List QueueSummary → String
  FormatQueues : List QueueSummary → String

/-- Ambient collaborators of the UI: the formatter set, the AWS profile
read from the environment by getAWSProfile, and the clock rendering of
lastRefresh.Format("15:04:05"). -/
structure Env where
  fmt : Formatters
  profile : String
  clock : Nat → String

/-- Viewport geometry and content (the fields of bubbles viewport.Model
that the source reads or writes: Width, Height, SetContent). -/
structure Viewport where
  width : Int
  height : Int
  content : String
deriving DecidableEq

/-- Model from internal/ui (part_003 lines 82-111). The spinner is kept as
the string its View() renders; scrolling state internal to the viewport is
out of scope. -/
structure Model where
  spinner : String
  viewport : Viewport
  loadingALB : Bool
  loadingRDS : Bool
  loadingEC2 : Bool
  loadingECS : Bool
  loadingSQS : Bool
  loadBalancers : List LoadBalancerSummary
  dbInstances : List DBInstanceSummary
  ec2Instances : List InstanceSummary
  ecsServices : List ServiceSummary
  sqsQueues : List QueueSummary
  albErr : Option String
  rdsErr : Option String
  ec2Err : Option String
  ecsErr : Option String
  sqsErr : Option String
  width : Int
  height : Int
  showALB : Bool
  showRDS : Bool
  showEC2 : Bool
  showECS : Bool
  showSQS : Bool
  region : String
  activeTab : Nat
  tabs : List String
  lastRefresh : Nat
deriving DecidableEq

/-- Messages fed to Update (commands.go message types plus the bubbletea
key, window-size and spinner-tick messages; sqsDataLoadedMsg is declared in
a source file absent from the snapshot, its fields are taken from its use
in Update, part_003 lines 296-304). -/
inductive Msg where
  | key (s : String)
  | windowSize (width height : Int)
  | spinnerTick
  | refreshTimer
  | albDataLoaded (loadBalancers : List LoadBalancerSummary) (err : Option String) (region : String)
  | rdsDataLoaded (dbInstances : List DBInstanceSummary) (err : Option String) (region : String)
  | ec2DataLoaded (instances : List InstanceSummary) (err : Option String) (region : String)
  | ecsDataLoaded (services : List ServiceSummary) (err : Option String) (region : String)
  | sqsDataLoaded (queues : List QueueSummary) (err : Option String) (region : String)
deriving DecidableEq

/-- Commands emitted by Init and Update (tea.Cmd values: the spinner tick,
the self-rearming refresh timer, the five per-family load commands and
tea.Quit); tea.Batch is flattened into a list. -/
inductive Cmd where
  | spinnerTickCmd
  | refreshTimerCmd
  | loadALBData
  | loadRDSData
  | loadEC2Data
  | loadECSData
  | loadSQSData
  | quit
deriving DecidableEq

/-- Resource families of the dashboard. -/
inductive Family where
  | alb
  | rds
  | ec2
  | ecs
  | sqs
deriving DecidableEq

/-- getRegionFlag from part_003 lines 394-456: flag emoji per region,
globe for unknown regions. -/
def getRegionFlag (region : String) : String :=
  match region with
  | "us-east-1" => "🇺🇸"
  | "us-east-2" => "🇺🇸"
  | "us-west-1" => "🇺🇸"
  | "us-west-2" => "🇺🇸"
  | "us-gov-east-1" => "🇺🇸"
  | "us-gov-west-1" => "🇺🇸"
  | "mx-central-1" => "🇲🇽"
  | "sa-east-1" => "🇧🇷"
  | "eu-west-1" => "🇮🇪"
  | "eu-west-2" => "🇬🇧"
  | "eu-west-3" => "🇫🇷"
  | "eu-central-1" => "🇩🇪"
  | "eu-central-2" => "🇨🇭"
  | "eu-south-1" => "🇮🇹"
  | "eu-south-2" => "🇪🇸"
  | "eu-north-1" => "🇸🇪"
  | "me-central-1" => "🇦🇪"
  | "me-south-1" => "🇧🇭"
  | "il-central-1" => "🇮🇱"
  | "ap-southeast-1" => "🇸🇬"
  | "ap-southeast-2" => "🇦🇺"
  | "ap-southeast-3" => "🇸🇬"
  | "ap-southeast-4" => "🇦🇺"
  | "ap-southeast-5" => "🇳🇿"
  | "ap-southeast-7" => "🇹🇭"
  | "ap-east-1" => "🇭🇰"
  | "ap-south-1" => "🇮🇳"
  | "ap-south-2" => "🇮🇳"
  | "ap-northeast-1" => "🇯🇵"
  | "ap-northeast-2" => "🇰🇷"
  | "ap-northeast-3" => "🇯🇵"
  | "ca-central-1" => "🇨🇦"
  | "ca-west-1" => "🇨🇦"
  | "af-south-1" => "🇿🇦"
  | "cn-north-1" => "🇨🇳"
  | "cn-northwest-1" => "🇨🇳"
  | _ => "🌐"

/-- View() of the MiniDot spinner, abstracted as one fixed frame glyph;
its exact value is irrelevant to every property below. -/
def spinnerMiniDot : String := "⋮"

/-- NewModel from part_003 lines 114-159: tabs list built from the enable
flags, every enabled family starts loading, active tab 0. The startup
instant time.Now() is abstracted as 0. -/
def NewModel (showALB showRDS showEC2 showECS showSQS : Bool) (region : String) : Model :=
  let tabs := ["Overview"]
    ++ (if showALB then ["Load Balancers"] else [])
    ++ (if showRDS then ["RDS Instances"] else [])
    ++ (if showEC2 then ["EC2 Instances"] else [])
    ++ (if showECS then ["ECS Services"] else [])
    ++ (if showSQS then ["SQS Queues"] else [])
  { spinner := spinnerMiniDot
    viewport := { width := 80, height := 20, content := "" }
    loadingALB := showALB
    loadingRDS := showRDS
    loadingEC2 := showEC2
    loadingECS := showECS
    loadingSQS := showSQS
    loadBalancers := []
    dbInstances := []
    ec2Instances := []
    ecsServices := []
    sqsQueues := []
    albErr := none
    rdsErr := none
    ec2Err := none
    ecsErr := none
    sqsErr := none
    width := 0
    height := 0
    showALB := showALB
    showRDS := showRDS
    showEC2 := showEC2
    showECS := showECS
    showSQS := showSQS
    region := region
    activeTab := 0
    tabs := tabs
    lastRefresh := 0 }

/-- Init from part_003 lines 162-189: spinner tick, refresh timer, and one
load command per enabled family (SQS included). -/
def Init (m : Model) : List Cmd :=
  [Cmd.spinnerTickCmd, Cmd.refreshTimerCmd]
    ++ (if m.showALB then [Cmd.loadALBData] else [])
    ++ (if m.showRDS then [Cmd.loadRDSData] else [])
    ++ (if m.showEC2 then [Cmd.loadEC2Data] else [])
    ++ (if m.showECS then [Cmd.loadECSData] else [])
    ++ (if m.showSQS then [Cmd.loadSQSData] else [])

/-- refreshData from commands.go lines 165-185: load commands for the
enabled families among ALB, RDS, EC2, ECS; SQS is absent and no loading
flag is consulted or set. -/
def refreshData (m : Model) : List Cmd :=
  (if m.showALB then [Cmd.loadALBData] else [])
    ++ (if m.showRDS then [Cmd.loadRDSData] else [])
    ++ (if m.showEC2 then [Cmd.loadEC2Data] else [])
    ++ (if m.showECS then [Cmd.loadECSData] else [])

/-- Leading lines of the overview content (part_003 lines 473-484): the
region line with its flag, the profile line when a profile is set, and
the last-refresh line. -/
def overviewHeader (env : Env) (m : Model) : String :=
  "Region: " ++ getRegionFlag m.region ++ " " ++ m.region ++ "\n"
    ++ (if env.profile != "" then "Profile: " ++ env.profile ++ "\n" else "")
    ++ "Last refresh: " ++ env.clock m.lastRefresh ++ " (auto-refreshes every minute)" ++ "\n\n"

/-- ALB overview line (part_003 lines 486-494): error line when the last
attempt failed, else the one-line summary; empty when disabled. -/
def albOverviewLine (env : Env) (m : Model) : String :=
  if m.showALB then
    match m.albErr with
    | some e => "❌ Load Balancer Error: " ++ e ++ "\n\n"
    | none => "✅ Load Balancers: " ++ env.fmt.GetLoadBalancersSummary m.loadBalancers ++ "\n\n"
  else ""

/-- RDS overview line (part_003 lines 496-504). -/
def rdsOverviewLine (env : Env) (m : Model) : String :=
  if m.showRDS then
    match m.rdsErr with
    | some e => "❌ RDS Error: " ++ e ++ "\n\n"
    | none => "✅ RDS Instances: " ++ env.fmt.GetDBInstancesSummary m.dbInstances ++ "\n\n"
  else ""

/-- EC2 overview line (part_003 lines 506-514). -/
def ec2OverviewLine (env : Env) (m : Model) : String :=
  if m.showEC2 then
    match m.ec2Err with
    | some e => "❌ EC2 Error: " ++ e ++ "\n\n"
    | none => "✅ EC2 Instances: " ++ env.fmt.GetInstancesSummary m.ec2Instances ++ "\n\n"
  else ""

/-- ECS overview line (part_003 lines 516-524); note there is no loading
check, so an ECS family still loading shows the summary of its current
(possibly empty) data. -/
def ecsOverviewLine (env : Env) (m : Model) : String :=
  if m.showECS then
    match m.ecsErr with
    | some e => "❌ ECS Error: " ++ e ++ "\n\n"
    | none => "✅ ECS Services: " ++ env.fmt.GetServicesSummary m.ecsServices ++ "\n\n"
  else ""

/-- SQS overview line (part_003 lines 526-534); as for ECS there is no
loading check. -/
def sqsOverviewLine (env : Env) (m : Model) : String :=
  if m.showSQS then
    match m.sqsErr with
    | some e => "❌ SQS Error: " ++ e ++ "\n\n"
    | none => "✅ SQS Queues: " ++ env.fmt.GetQueuesSummary m.sqsQueues ++ "\n\n"
  else ""

/-- Hint shown when no family is enabled (part_003 lines 536-538). -/
def overviewNoServicesHint (m : Model) : String :=
  if !m.showALB && !m.showRDS && !m.showEC2 && !m.showECS && !m.showSQS then
    "No services selected. Use -alb=true, -rds=true, -ec2=true, and/or -ecs=true flags."
  else ""

/-- renderOverview from part_003 lines 468-541. If any enabled family among
ALB, RDS, EC2 is loading, the whole view is the spinner line; otherwise the
header lines followed by one line per enabled family (error or summary) and
the no-services hint, concatenated in source order (the chain of
content-accumulating assignments associates to the left exactly as here).
Lipgloss styling is the identity on content. -/
def renderOverview (env : Env) (m : Model) : String :=
  if (m.loadingALB && m.showALB) || (m.loadingRDS && m.showRDS) || (m.loadingEC2 && m.showEC2) then
    m.spinner ++ " Loading AWS resources..."
  else
    overviewHeader env m ++ albOverviewLine env m ++ rdsOverviewLine env m
      ++ ec2OverviewLine env m ++ ecsOverviewLine env m ++ sqsOverviewLine env m
      ++ overviewNoServicesHint m

/-- renderALB from part_003 lines 544-554: spinner while loading, else the
error if set, else the formatted detail listing. -/
def renderALB (env : Env) (m : Model) : String :=
  if m.loadingALB then
    m.spinner ++ " Loading ALB data..."
  else
    match m.albErr with
    | some e => "Error loading ALB data: " ++ e
    | none => env.fmt.FormatLoadBalancers m.loadBalancers

/-- renderRDS from part_003 lines 557-567. -/
def renderRDS (env : Env) (m : Model) : String :=
  if m.loadingRDS then
    m.spinner ++ " Loading RDS data..."
  else
    match m.rdsErr with
    | some e => "Error loading RDS data: " ++ e
    | none => env.fmt.FormatDBInstances m.dbInstances

/-- renderEC2 from part_003 lines 570-580. -/
def renderEC2 (env : Env) (m : Model) : String :=
  if m.loadingEC2 then
    m.spinner ++ " Loading EC2 data..."
  else
    match m.ec2Err with
    | some e => "Error loading EC2 data: " ++ e
    | none => env.fmt.FormatInstances m.ec2Instances

/-- renderECS from part_003 lines 583-593. -/
def renderECS (env : Env) (m : Model) : String :=
  if m.loadingECS then
    m.spinner ++ " Loading ECS data..."
  else
    match m.ecsErr with
    | some e => "Error loading ECS data: " ++ e
    | none => env.fmt.FormatServices m.ecsServices

/-- renderSQS from part_003 lines 596-606. -/
def renderSQS (env : Env) (m : Model) : String :=
  if m.loadingSQS then
    m.spinner ++ " Loading SQS data..."
  else
    match m.sqsErr with
    | some e => "Error loading SQS data: " ++ e
    | none => env.fmt.FormatQueues m.sqsQueues

/-- updateViewportContent from part_003 lines 311-342: the ad hoc
conditional chain mapping the active tab to a render function; when no
case matches the Go string variable keeps its zero value "". -/
def updateViewportContent (env : Env) (m : Model) : Model :=
  let a := m.showALB
  let r := m.showRDS
  let e := m.showEC2
  let c := m.showECS
  let t := m.activeTab
  let isOverviewTab : Bool := t == 0
  let isALBTab : Bool := t == 1 && a
  let isRDSTab : Bool := (t == 1 && !a && r) || (t == 2 && a && r)
  let isEC2Tab : Bool := (t == 1 && !a && !r && e) || (t == 2 && !a && e) || (t == 2 && !r && e)
    || (t == 3 && a && r && e)
  let isECSTab : Bool := (t == 1 && !a && !r && !e && c) || (t == 2 && !a && !r && c)
    || (t == 2 && !a && !e && c) || (t == 2 && !r && !e && c)
    || (t == 3 && !a && c) || (t == 3 && !r && c) || (t == 3 && !e && c)
    || (t == 4 && a && r && e && c)
  let isSQSTab : Bool := decide (1 ≤ t) && decide (t ≤ 5) && m.showSQS
    && (t == m.tabs.length - 1 || m.tabs.getD t "" == "SQS Queues")
  let content :=
    if isOverviewTab then renderOverview env m
    else if isALBTab then renderALB env m
    else if isRDSTab then renderRDS env m
    else if isEC2Tab then renderEC2 env m
    else if isECSTab then renderECS env m
    else if isSQSTab then renderSQS env m
    else ""
  { m with viewport := { m.viewport with content := content } }

/-- Update from part_003 lines 192-308. Keys reach the viewport first
unless excluded; the bubbles viewport never returns a command for the keys
in play, so control always falls through to the key switch (viewport
scrolling itself is out of scope and leaves the modelled fields unchanged).
The current wall-clock instant read by time.Now() in the refresh branch is
the `now` argument. -/
def Update (env : Env) (now : Nat) (m : Model) (msg : Msg) : Model × List Cmd :=
  match msg with
  | .key s =>
    if s == "q" || s == "ctrl+c" then
      (m, [Cmd.quit])
    else if s == "tab" || s == "right" || s == "l" then
      let m := { m with activeTab := (m.activeTab + 1) % m.tabs.length }
      (updateViewportContent env m, [])
    else if s == "shift+tab" || s == "left" || s == "h" then
      let m := { m with activeTab := (m.activeTab + m.tabs.length - 1) % m.tabs.length }
      (updateViewportContent env m, [])
    else if s == "r" then
      (m, refreshData m)
    else
      (m, [])
  | .windowSize w h =>
    let headerHeight : Int := 12
    let footerHeight : Int := 1
    let m := { m with
      width := w
      height := h
      viewport := { m.viewport with
        width := w - 4
        height := h - headerHeight - footerHeight - 2 } }
    (updateViewportContent env m, [])
  | .spinnerTick =>
    (m, [Cmd.spinnerTickCmd])
  | .refreshTimer =>
    let m := { m with lastRefresh := now }
    let cmds :=
      if !m.loadingALB && !m.loadingRDS && !m.loadingEC2 && !m.loadingECS && !m.loadingSQS then
        refreshData m
      else []
    (m, cmds ++ [Cmd.refreshTimerCmd])
  | .albDataLoaded lbs err reg =>
    let m := { m with
      loadingALB := false
      loadBalancers := lbs
      albErr := err
      region := if m.region == "" && reg != "" then reg else m.region }
    (updateViewportContent env m, [])
  | .rdsDataLoaded dbs err reg =>
    let m := { m with
      loadingRDS := false
      dbInstances := dbs
      rdsErr := err
      region := if m.region == "" && reg != "" then reg else m.region }
    (updateViewportContent env m, [])
  | .ec2DataLoaded insts err reg =>
    let m := { m with
      loadingEC2 := false
      ec2Instances := insts
      ec2Err := err
      region := if m.region == "" && reg != "" then reg else m.region }
    (updateViewportContent env m, [])
  | .ecsDataLoaded svcs err reg =>
    let m := { m with
      loadingECS := false
      ecsServices := svcs
      ecsErr := err
      region := if m.region == "" && reg != "" then reg else m.region }
    (updateViewportContent env m, [])
  | .sqsDataLoaded qs err reg =>
    let m := { m with
      loadingSQS := false
      sqsQueues := qs
      sqsErr := err
      region := if m.region == "" && reg != "" then reg else m.region }
    (updateViewportContent env m, [])

/-- Replay of a message sequence through Update, keeping only the model. -/
def applyMsgs (env : Env) (now : Nat) (m : Model) (msgs : List Msg) : Model :=
  msgs.foldl (fun m e => (Update env now m e).1) m

/-- Family fetched by a command, if any. -/
def Cmd.fetchFamily : Cmd → Option Family
  | .loadALBData => some .alb
  | .loadRDSData => some .rds
  | .loadEC2Data => some .ec2
  | .loadECSData => some .ecs
  | .loadSQSData => some .sqs
  | _ => none

/-- Number of fetch commands for a given family in a command batch. -/
def countFetch (f : Family) (cs : List Cmd) : Nat :=
  (cs.filter (fun cmd => cmd.fetchFamily == some f)).length

/-- Family whose in-flight fetch a completion message resolves, if any. -/
def Msg.resolvesFamily : Msg → Option Family
  | .albDataLoaded _ _ _ => some .alb
  | .rdsDataLoaded _ _ _ => some .rds
  | .ec2DataLoaded _ _ _ => some .ec2
  | .ecsDataLoaded _ _ _ => some .ecs
  | .sqsDataLoaded _ _ _ => some .sqs
  | _ => none

/-- Count of dispatched-but-unresolved fetches per family. -/
structure InFlight where
  alb : Nat
  rds : Nat
  ec2 : Nat
  ecs : Nat
  sqs : Nat
deriving DecidableEq

/-- InFlight with no outstanding fetch. -/
def InFlight.zero : InFlight := ⟨0, 0, 0, 0, 0⟩

/-- Projection of InFlight at a family. -/
def InFlight.get (fl : InFlight) : Family → Nat
  | .alb => fl.alb
  | .rds => fl.rds
  | .ec2 => fl.ec2
  | .ecs => fl.ecs
  | .sqs => fl.sqs

/-- InFlight after the dispatch of a command batch. -/
def InFlight.addCmds (fl : InFlight) (cs : List Cmd) : InFlight :=
  { alb := fl.alb + countFetch .alb cs
    rds := fl.rds + countFetch .rds cs
    ec2 := fl.ec2 + countFetch .ec2 cs
    ecs := fl.ecs + countFetch .ecs cs
    sqs := fl.sqs + countFetch .sqs cs }

/-- InFlight after one fetch of the given family resolves. -/
def InFlight.resolve (fl : InFlight) : Option Family → InFlight
  | some .alb => { fl with alb := fl.alb - 1 }
  | some .rds => { fl with rds := fl.rds - 1 }
  | some .ec2 => { fl with ec2 := fl.ec2 - 1 }
  | some .ecs => { fl with ecs := fl.ecs - 1 }
  | some .sqs => { fl with sqs := fl.sqs - 1 }
  | none => fl

/-- Event-loop configuration: the model together with the number of
dispatched-but-unresolved fetches per family. -/
structure Exec where
  model : Model
  inFlight : InFlight
deriving DecidableEq

/-- One event-loop step: a completion message first resolves its fetch,
then Update runs and any commands it emits are dispatched. -/
def stepExec (env : Env) (now : Nat) (s : Exec) (msg : Msg) : Exec :=
  let p := Update env now s.model msg
  { model := p.1
    inFlight := (s.inFlight.resolve msg.resolvesFamily).addCmds p.2 }

/-- Event-loop configuration right after startup: NewModel plus the
dispatch of the Init command batch. -/
def initExec (m : Model) : Exec :=
  { model := m, inFlight := InFlight.zero.addCmds (Init m) }

/-- Replay of an event sequence through the event loop. -/
def runTrace (env : Env) (now : Nat) (s : Exec) (msgs : List Msg) : Exec :=
  msgs.foldl (stepExec env now) s

/-- Region string carried by a completion message; empty for every other
message. -/
def Msg.regionOf : Msg → String
  | .albDataLoaded _ _ reg => reg
  | .rdsDataLoaded _ _ reg => reg
  | .ec2DataLoaded _ _ reg => reg
  | .ecsDataLoaded _ _ reg => reg
  | .sqsDataLoaded _ _ reg => reg
  | _ => ""

/-- AWS SDK LoadBalancer as read by GetLoadBalancers; the pointer fields
it dereferences unconditionally are plain strings. -/
structure AwsLoadBalancer where
  LoadBalancerArn : String
  LoadBalancerName : String
  DNSName : String
deriving DecidableEq

/-- AWS SDK TargetGroup as read by getTargetGroupSummary. -/
structure AwsTargetGroup where
  TargetGroupArn : String
  TargetGroupName : String
deriving DecidableEq

/-- AWS SDK TargetDescription; Port is optional because the source checks
the pointer for nil before dereferencing. -/
structure AwsTargetDescription where
  Id : String
  Port : Option Int
deriving DecidableEq

/-- AWS SDK TargetHealth (state and reason read as strings). -/
structure AwsTargetHealth where
  State : String
  Reason : String
deriving DecidableEq

/-- AWS SDK TargetHealthDescription. -/
structure AwsTargetHealthDescription where
  Target : AwsTargetDescription
  TargetHealth : AwsTargetHealth
deriving DecidableEq

/-- Remote ELBv2 API surface used by pkg/alb (the elbv2ClientAPI
interface), with each call returning a fixed response: deterministic
responses keyed by the request ARN, errors as strings. -/
structure Elbv2Client where
  DescribeLoadBalancers : Except String (List AwsLoadBalancer)
  DescribeTargetGroups : String → Except String (List AwsTargetGroup)
  DescribeTargetHealth : String → Except String (List AwsTargetHealthDescription)

/-- getTargetGroupSummary from pkg/alb (part_010): describes target health
for one target group and builds its summary, wrapping a failure in the
per-target-group error message. -/
def getTargetGroupSummary (cl : Elbv2Client) (tg : AwsTargetGroup) :
    Except String TargetGroupSummary :=
  match cl.DescribeTargetHealth tg.TargetGroupArn with
  | .error e =>
    .error ("failed to describe target health for TG " ++ tg.TargetGroupName ++ ": " ++ e)
  | .ok thds =>
    .ok { Name := tg.TargetGroupName
          ARN := tg.TargetGroupArn
          Targets := thds.map (fun thd =>
            { ID := thd.Target.Id
              Port := thd.Target.Port.getD 0
              Status := thd.TargetHealth.State
              Reason := if thd.TargetHealth.Reason != "" then thd.TargetHealth.Reason else "" }) }

/-- Body of the per-load-balancer goroutine in GetLoadBalancers: describe
the target groups of one load balancer, fan out per target group, and
either return the first target-group error (in launch order, under the
deterministic sequential scheduling of this embedding) or the summary with
all target groups. -/
def processLoadBalancer (cl : Elbv2Client) (lb : AwsLoadBalancer) :
    Except String LoadBalancerSummary :=
  match cl.DescribeTargetGroups lb.LoadBalancerArn with
  | .error e =>
    .error ("failed to describe target groups for LB " ++ lb.LoadBalancerName ++ ": " ++ e)
  | .ok tgs =>
    let results := tgs.map (getTargetGroupSummary cl)
    let errs := results.filterMap (fun res => match res with | .error e => some e | .ok _ => none)
    match errs with
    | e :: _ => .error e
    | [] =>
      .ok { Name := lb.LoadBalancerName
            DNSName := lb.DNSName
            TargetGroups := results.filterMap (fun res =>
              match res with | .ok s => some s | .error _ => none) }

/-- Errors of a fan-out result list, in launch order. -/
def fanoutErrors (results : List (Except String LoadBalancerSummary)) : List String :=
  results.filterMap (fun res => match res with | .error e => some e | .ok _ => none)

/-- Successful summaries of a fan-out result list, in launch order. -/
def fanoutRecords (results : List (Except String LoadBalancerSummary)) :
    List LoadBalancerSummary :=
  results.filterMap (fun res => match res with | .ok s => some s | .error _ => none)

/-- GetLoadBalancers from pkg/alb (part_010): list the load balancers, fan
out one goroutine per load balancer, and if any of them failed return nil
records with the first error received on the error channel (launch order
under the deterministic scheduling of this embedding), else all summaries. -/
def GetLoadBalancers (cl : Elbv2Client) : Except String (List LoadBalancerSummary) :=
  match cl.DescribeLoadBalancers with
  | .error e => .error ("failed to describe load balancers: " ++ e)
  | .ok lbs =>
    let results := lbs.map (processLoadBalancer cl)
    match fanoutErrors results with
    | e :: _ => .error e
    | [] => .ok (fanoutRecords results)

/-- Occurrence of a pattern inside a list, as contiguous segment. -/
def listHasSegment [DecidableEq α] (pat : List α) : List α → Bool
  | [] => pat.isEmpty
  | x :: rest => (List.take pat.length (x :: rest) == pat) || listHasSegment pat rest

/-- Occurrence of one string inside another as a contiguous substring. -/
def occursIn (pat hay : String) : Prop :=
  ∃ l r, hay = l ++ pat ++ r

/-- Marker formatter set for concrete evaluation: each formatter returns a
fixed tag, so occurrences of a tag in rendered output witness exactly one
formatter call. -/
def fmt0 : Formatters :=
  { GetLoadBalancersSummary := fun _ => "ALB-SUMMARY"
    FormatLoadBalancers := fun _ => "ALB-DETAIL"
    GetDBInstancesSummary := fun _ => "RDS-SUMMARY"
    FormatDBInstances := fun _ => "RDS-DETAIL"
    GetInstancesSummary := fun _ => "EC2-SUMMARY"
    FormatInstances := fun _ => "EC2-DETAIL"
    GetServicesSummary := fun _ => "ECS-SUMMARY"
    FormatServices := fun _ => "ECS-DETAIL"
    GetQueuesSummary := fun _ => "SQS-SUMMARY"
    FormatQueues := fun _ => "SQS-DETAIL" }

/-- Concrete environment for evaluation. -/
def env0 : Env := { fmt := fmt0, profile := "", clock := fun _ => "00:00:00" }

/-- Sample load balancer record. -/
def lbRec (i : Nat) : LoadBalancerSummary :=
  { Name := "lb-" ++ toString i, DNSName := "dns-" ++ toString i, TargetGroups := [] }

/-- Five sample load balancer records. -/
def fiveLbs : List LoadBalancerSummary := [lbRec 1, lbRec 2, lbRec 3, lbRec 4, lbRec 5]

/-- Occurrence of a string in itself. -/
theorem occursIn_self (pat : String) : occursIn pat pat :=
  ⟨"", "", by rw [String.empty_append, String.append_empty]⟩

/-- Occurrence is preserved by appending on the right. -/
theorem occursIn_append_right (pat a b : String) (h : occursIn pat a) :
    occursIn pat (a ++ b) := by
  obtain ⟨l, r, hl⟩ := h
  exact ⟨l, r ++ b, by rw [hl, String.append_assoc, String.append_assoc]⟩

/-- Occurrence is preserved by appending on the left. -/
theorem occursIn_append_left (pat a b : String) (h : occursIn pat b) :
    occursIn pat (a ++ b) := by
  obtain ⟨l, r, hl⟩ := h
  exact ⟨a ++ l, r, by rw [hl]; simp [String.append_assoc]⟩

/-- toList distributes over string append. -/
theorem strToList_append (a b : String) : (a ++ b).toList = a.toList ++ b.toList :=
  String.data_append a b

/-- A pattern occurs in the list that is itself prefixed by the pattern. -/
theorem listHasSegment_self_append (pat y : List Char) :
    listHasSegment pat (pat ++ y) = true := by
  cases pat with
  | nil =>
    cases y with
    | nil => rfl
    | cons c rest =>
      simp [listHasSegment]
  | cons p ps =>
    show listHasSegment (p :: ps) ((p :: ps) ++ y) = true
    rw [List.cons_append]
    unfold listHasSegment
    rw [← List.cons_append, List.take_left]
    simp

/-- A pattern occurs in any list of which it is a contiguous segment. -/
theorem listHasSegment_of_append (pat x y : List Char) :
    listHasSegment pat (x ++ pat ++ y) = true := by
  induction x with
  | nil => rw [List.nil_append]; exact listHasSegment_self_append pat y
  | cons a xs ih =>
    rw [List.cons_append, List.cons_append]
    unfold listHasSegment
    rw [← List.cons_append, ← List.cons_append]
    have : listHasSegment pat (xs ++ pat ++ y) = true := by
      rw [List.append_assoc] at ih ⊢
      exact ih
    rw [List.append_assoc, this]
    simp

/-- Soundness of the boolean segment check with respect to occursIn: an
occurrence in the string forces the check on the character lists. -/
theorem listHasSegment_of_occursIn (pat hay : String) (h : occursIn pat hay) :
    listHasSegment pat.toList hay.toList = true := by
  obtain ⟨l, r, hl⟩ := h
  rw [hl, strToList_append, strToList_append]
  exact listHasSegment_of_append pat.toList l.toList r.toList

/-- Reduction of Update at the manual-refresh key. -/
theorem update_key_r (env : Env) (now : Nat) (m : Model) :
    Update env now m (.key "r") = (m, refreshData m) := rfl

/-- Reduction of Update at the next-tab key. -/
theorem update_key_tab (env : Env) (now : Nat) (m : Model) :
    Update env now m (.key "tab") =
      (updateViewportContent env { m with activeTab := (m.activeTab + 1) % m.tabs.length }, []) :=
  rfl

/-- Reduction of Update at the previous-tab key. -/
theorem update_key_shift_tab (env : Env) (now : Nat) (m : Model) :
    Update env now m (.key "shift+tab") =
      (updateViewportContent env
        { m with activeTab := (m.activeTab + m.tabs.length - 1) % m.tabs.length }, []) :=
  rfl

/-- updateViewportContent only rewrites the viewport content. -/
theorem updateViewportContent_only_viewport (env : Env) (m : Model) :
    (updateViewportContent env m).activeTab = m.activeTab ∧
    (updateViewportContent env m).tabs = m.tabs ∧
    (updateViewportContent env m).region = m.region ∧
    (updateViewportContent env m).loadBalancers = m.loadBalancers ∧
    (updateViewportContent env m).albErr = m.albErr ∧
    (updateViewportContent env m).loadingALB = m.loadingALB := by
  refine ⟨?_, ?_, ?_, ?_, ?_, ?_⟩ <;> rfl

/-- C8 counterexample input: all families enabled, then a resize to 0x0. -/
def c8Base : Model := NewModel true true true true true ""

/-- C8: the claim that resize clamps the viewport dimensions at zero is
false: a Resize to width 0 and height 0 stores viewport width -4 and
height -15, both negative. -/
theorem c8_counterexample :
    (Update env0 0 c8Base (Msg.windowSize 0 0)).1.viewport.width = -4 ∧
    (Update env0 0 c8Base (Msg.windowSize 0 0)).1.viewport.height = -15 ∧
    (Update env0 0 c8Base (Msg.windowSize 0 0)).1.viewport.width < 0 ∧
    (Update env0 0 c8Base (Msg.windowSize 0 0)).1.viewport.height < 0 := by
  refine ⟨rfl, rfl, ?_, ?_⟩ <;> decide

/-- C8 (amended): a Resize event stores the window size and sets the
viewport width to width-4 and the viewport height to height-12-1-2 with no
clamping, so both can be negative when the window is smaller than the
fixed chrome reservation. -/
theorem c8_amended (env : Env) (now : Nat) (m : Model) (w h : Int) :
    (Update env now m (.windowSize w h)).1.viewport.width = w - 4 ∧
    (Update env now m (.windowSize w h)).1.viewport.height = h - 12 - 1 - 2 ∧
    (Update env now m (.windowSize w h)).1.width = w ∧
    (Update env now m (.windowSize w h)).1.height = h := by
  refine ⟨?_, ?_, ?_, ?_⟩ <;> rfl

/-- C1 counterexample input: ALB enabled, a previously stored result, not
loading. -/
def c1State : Model :=
  { NewModel true false false false false "" with
    loadingALB := false
    loadBalancers := [lbRec 1] }

/-- C1: the claim that a FetchCompleted error event leaves a previously
stored lastResult unchanged is false: the handler overwrites the stored
records with the (nil) records carried by the failed-fetch message, which
loadALBData populates with the nil slice returned by GetLoadBalancers on
error, so the prior record list is cleared. -/
theorem c1_counterexample :
    c1State.loadBalancers = [lbRec 1] ∧
    (Update env0 0 c1State (Msg.albDataLoaded [] (some "fetch failed") "")).1.loadBalancers
      = [] ∧
    (Update env0 0 c1State (Msg.albDataLoaded [] (some "fetch failed") "")).1.albErr
      = some "fetch failed" := by
  refine ⟨rfl, rfl, rfl⟩

/-- C1 (amended): applying a FetchCompleted event for the ALB family
unconditionally replaces lastResult with the records carried by the
message and stores its error, clearing loading; since the load command
carries nil records whenever the fetch failed, a failed fetch replaces a
previously stored lastResult with the empty list instead of retaining it. -/
theorem c1_amended (env : Env) (now : Nat) (m : Model) (lbs : List LoadBalancerSummary)
    (err : Option String) (reg : String) :
    (Update env now m (.albDataLoaded lbs err reg)).1.loadBalancers = lbs ∧
    (Update env now m (.albDataLoaded lbs err reg)).1.albErr = err ∧
    (Update env now m (.albDataLoaded lbs err reg)).1.loadingALB = false := by
  refine ⟨?_, ?_, ?_⟩ <;> rfl

/-- refreshData never contains an SQS fetch. -/
theorem countFetch_sqs_refreshData (m : Model) : countFetch .sqs (refreshData m) = 0 := by
  unfold countFetch refreshData
  cases m.showALB <;> cases m.showRDS <;> cases m.showEC2 <;> cases m.showECS <;> rfl

/-- Per-family fetch count of refreshData: one fetch for each enabled
family among ALB, RDS, EC2, ECS, none for SQS and none gated on loading. -/
theorem countFetch_refreshData (m : Model) :
    countFetch .alb (refreshData m) = (if m.showALB then 1 else 0) ∧
    countFetch .rds (refreshData m) = (if m.showRDS then 1 else 0) ∧
    countFetch .ec2 (refreshData m) = (if m.showEC2 then 1 else 0) ∧
    countFetch .ecs (refreshData m) = (if m.showECS then 1 else 0) ∧
    countFetch .sqs (refreshData m) = 0 := by
  unfold countFetch refreshData
  refine ⟨?_, ?_, ?_, ?_, ?_⟩ <;>
    (cases m.showALB <;> cases m.showRDS <;> cases m.showEC2 <;> cases m.showECS <;> rfl)

/-- countFetch distributes over batch concatenation. -/
theorem countFetch_append (f : Family) (a b : List Cmd) :
    countFetch f (a ++ b) = countFetch f a + countFetch f b := by
  unfold countFetch
  rw [List.filter_append, List.length_append]

/-- Reduction of Update at the refresh timer event. -/
theorem update_refreshTimer (env : Env) (now : Nat) (m : Model) :
    Update env now m .refreshTimer =
      ({ m with lastRefresh := now },
        (if !m.loadingALB && !m.loadingRDS && !m.loadingEC2 && !m.loadingECS && !m.loadingSQS
          then refreshData { m with lastRefresh := now } else [])
          ++ [Cmd.refreshTimerCmd]) := rfl

/-- C10: SQS is excluded from refresh. Init dispatches one SQS fetch
exactly when the SQS family is enabled, while Update never emits an SQS
fetch for any event (in particular not for the manual-refresh key or the
refresh timer, whose refreshData batch only covers ALB, RDS, EC2, ECS),
and both refresh events leave the SQS data, error and loading state
unchanged. -/
theorem c10_sqs_excluded_from_refresh (env : Env) (now : Nat) (m : Model) (msg : Msg) :
    countFetch .sqs (Init m) = (if m.showSQS then 1 else 0) ∧
    countFetch .sqs (Update env now m msg).2 = 0 ∧
    (Update env now m (.key "r")).1.sqsQueues = m.sqsQueues ∧
    (Update env now m (.key "r")).1.sqsErr = m.sqsErr ∧
    (Update env now m (.key "r")).1.loadingSQS = m.loadingSQS ∧
    (Update env now m .refreshTimer).1.sqsQueues = m.sqsQueues ∧
    (Update env now m .refreshTimer).1.sqsErr = m.sqsErr ∧
    (Update env now m .refreshTimer).1.loadingSQS = m.loadingSQS := by
  refine ⟨?_, ?_, rfl, rfl, rfl, rfl, rfl, rfl⟩
  · unfold countFetch Init
    cases m.showALB <;> cases m.showRDS <;> cases m.showEC2 <;> cases m.showECS <;>
      cases m.showSQS <;> rfl
  · cases msg with
    | key s =>
      simp only [Update]
      repeat' split
      all_goals first
        | rfl
        | exact countFetch_sqs_refreshData _
    | refreshTimer =>
      rw [update_refreshTimer]
      rw [show ({ m with lastRefresh := now },
        (if !m.loadingALB && !m.loadingRDS && !m.loadingEC2 && !m.loadingECS && !m.loadingSQS
          then refreshData { m with lastRefresh := now } else [])
          ++ [Cmd.refreshTimerCmd]).2 =
        (if !m.loadingALB && !m.loadingRDS && !m.loadingEC2 && !m.loadingECS && !m.loadingSQS
          then refreshData { m with lastRefresh := now } else [])
          ++ [Cmd.refreshTimerCmd] from rfl]
      rw [countFetch_append]
      split
      · rw [countFetch_sqs_refreshData]
        rfl
      · rfl
    | windowSize w h => rfl
    | spinnerTick => rfl
    | albDataLoaded lbs err reg => rfl
    | rdsDataLoaded dbs err reg => rfl
    | ec2DataLoaded insts err reg => rfl
    | ecsDataLoaded svcs err reg => rfl
    | sqsDataLoaded qs err reg => rfl

/-- C2 counterexample start: all families enabled, right after startup
(Init has dispatched one fetch per family and every loading flag is
true). -/
def c2Start : Exec := initExec (NewModel true true true true true "")

/-- C2: the no-overlap invariant is false. Right after startup the ALB
family has one dispatched-but-unresolved fetch and loadingALB is true,
yet a single manual-refresh key dispatches a second ALB fetch without any
completion in between: two fetches for the same family are then in
flight, and the dispatch happened while loading was already true (no path
set it afresh). -/
theorem c2_counterexample :
    (NewModel true true true true true "").loadingALB = true ∧
    c2Start.inFlight.alb = 1 ∧
    (runTrace env0 0 c2Start [Msg.key "r"]).inFlight.alb = 2 ∧
    (runTrace env0 0 c2Start [Msg.key "r"]).model.loadingALB = true := by
  refine ⟨rfl, rfl, ?_, ?_⟩ <;> rfl

/-- C2 (amended): only the initial model construction establishes
loading=true for enabled families; the manual-refresh key dispatches one
fetch per enabled family (among ALB, RDS, EC2, ECS) unconditionally
without consulting or setting loading, and the refresh timer dispatches
the same batch gated only on the conjunction that no family at all is
loading, also without setting loading — so a fetch can be dispatched for a
family whose previous fetch is still unresolved and the no-overlap
invariant does not hold. -/
theorem c2_amended (env : Env) (now : Nat) (m : Model) (a r e c s : Bool) (reg : String) :
    (NewModel a r e c s reg).loadingALB = a ∧
    (Update env now m (.key "r")).2 = refreshData m ∧
    countFetch .alb (refreshData m) = (if m.showALB then 1 else 0) ∧
    (Update env now m (.key "r")).1.loadingALB = m.loadingALB ∧
    (Update env now m .refreshTimer).2 =
      (if !m.loadingALB && !m.loadingRDS && !m.loadingEC2 && !m.loadingECS && !m.loadingSQS
        then refreshData { m with lastRefresh := now } else []) ++ [Cmd.refreshTimerCmd] ∧
    (Update env now m .refreshTimer).1.loadingALB = m.loadingALB := by
  refine ⟨?_, rfl, (countFetch_refreshData m).1, rfl, ?_, rfl⟩
  · cases a <;> rfl
  · rw [update_refreshTimer]

/-- C3 counterexample input A: ALB and RDS enabled, ALB loading, RDS not
loading. -/
def c3StateA : Model := { NewModel true true false false false "" with loadingRDS := false }

/-- C3 counterexample input B: only ALB enabled, nothing loading. -/
def c3StateB : Model := { NewModel true false false false false "" with loadingALB := false }

/-- C3: the per-family-skipping claim is false twice over. With ALB
loading and RDS enabled-but-idle, a RefreshTick dispatches nothing at all
(the claim requires a fetch for exactly the not-loading RDS family); and
from a state with nothing loading, a first RefreshTick dispatches an ALB
fetch but a second RefreshTick with no intervening completion dispatches
another one, raising the in-flight count from 1 to 2 instead of leaving
it unchanged. -/
theorem c3_counterexample :
    c3StateA.showRDS = true ∧ c3StateA.loadingRDS = false ∧ c3StateA.loadingALB = true ∧
    countFetch .rds (Update env0 0 c3StateA .refreshTimer).2 = 0 ∧
    c3StateB.loadingALB = false ∧
    (runTrace env0 0 ⟨c3StateB, InFlight.zero⟩ [Msg.refreshTimer]).inFlight.alb = 1 ∧
    (runTrace env0 0 ⟨c3StateB, InFlight.zero⟩
      [Msg.refreshTimer, Msg.refreshTimer]).inFlight.alb = 2 := by
  refine ⟨rfl, rfl, rfl, ?_, rfl, ?_, ?_⟩ <;> rfl

/-- C3 (amended): a RefreshTick dispatches one fetch for every enabled
family among ALB, RDS, EC2, ECS when no family at all is loading, and
dispatches nothing when any family is loading (not the not-loading
subset); it records the timestamp and leaves every loading flag
unchanged, so a second tick with no intervening completion repeats the
whole dispatch instead of being idempotent. -/
theorem c3_amended (env : Env) (now : Nat) (m : Model) :
    (Update env now m .refreshTimer).2 =
      (if !m.loadingALB && !m.loadingRDS && !m.loadingEC2 && !m.loadingECS && !m.loadingSQS
        then refreshData { m with lastRefresh := now } else []) ++ [Cmd.refreshTimerCmd] ∧
    countFetch .rds (refreshData m) = (if m.showRDS then 1 else 0) ∧
    (Update env now m .refreshTimer).1 = { m with lastRefresh := now } := by
  refine ⟨?_, (countFetch_refreshData m).2.1, rfl⟩
  rw [update_refreshTimer]

/-- One-step region equation: every event leaves the region unchanged
unless the region is still empty and the event is a completion carrying a
non-empty resolved region, in which case that region is stored. -/
theorem update_region (env : Env) (now : Nat) (m : Model) (msg : Msg) :
    (Update env now m msg).1.region =
      (if m.region == "" && msg.regionOf != "" then msg.regionOf else m.region) := by
  cases msg with
  | key s =>
    have hrhs : ((m.region == "") && (Msg.key s).regionOf != "") = false := by
      simp [Msg.regionOf]
    rw [hrhs, if_neg (by simp)]
    simp only [Update]
    repeat' split
    all_goals simp [updateViewportContent]
  | windowSize w h =>
    simp [Update, updateViewportContent, Msg.regionOf]
  | spinnerTick =>
    simp [Update, Msg.regionOf]
  | refreshTimer =>
    rw [update_refreshTimer]
    simp [Msg.regionOf]
  | albDataLoaded lbs err reg =>
    simp [Update, updateViewportContent, Msg.regionOf]
  | rdsDataLoaded dbs err reg =>
    simp [Update, updateViewportContent, Msg.regionOf]
  | ec2DataLoaded insts err reg =>
    simp [Update, updateViewportContent, Msg.regionOf]
  | ecsDataLoaded svcs err reg =>
    simp [Update, updateViewportContent, Msg.regionOf]
  | sqsDataLoaded qs err reg =>
    simp [Update, updateViewportContent, Msg.regionOf]

/-- A non-empty region survives the replay of any event sequence. -/
theorem applyMsgs_region_preserved (env : Env) (now : Nat) (msgs : List Msg) :
    ∀ m : Model, m.region ≠ "" → (applyMsgs env now m msgs).region = m.region := by
  induction msgs with
  | nil => intro m _; rfl
  | cons e rest ih =>
    intro m h
    have hr : (Update env now m e).1.region = m.region := by
      rw [update_region]
      have hb : (m.region == "") = false := by
        simpa using h
      simp [hb]
    have step : applyMsgs env now m (e :: rest) =
        applyMsgs env now (Update env now m e).1 rest := rfl
    rw [step, ih _ (by rw [hr]; exact h), hr]

/-- C6: region first-writer-wins, both halves. Unconditionally, every
event rewrites the region by the one guarded rule of the handlers; in
particular (second conjunct, with no restriction on the current region)
an event that carries a non-empty resolved region sets an empty region to
exactly that value — this is the first completion writing the region —
while (third conjunct) a model whose region is already non-empty keeps it
unchanged across every event sequence, whatever different region a later
completion reports. -/
theorem c6_region_first_writer_wins (env : Env) (now : Nat) (m : Model) (msg : Msg)
    (msgs : List Msg) :
    ((Update env now m msg).1.region =
      (if m.region == "" && msg.regionOf != "" then msg.regionOf else m.region)) ∧
    (m.region = "" → msg.regionOf ≠ "" →
      (Update env now m msg).1.region = msg.regionOf) ∧
    (m.region ≠ "" → (applyMsgs env now m msgs).region = m.region) := by
  refine ⟨update_region env now m msg, ?_, ?_⟩
  · intro h1 h2
    rw [update_region, h1]
    simp [h2]
  · intro h
    exact applyMsgs_region_preserved env now msgs m h

/-- C6 input for the witness: region unset at startup. -/
def c6empty : Model := NewModel true true true true true ""

/-- C6 input for the witness: region already resolved to us-east-1. -/
def c6m : Model := NewModel true true true true true "us-east-1"

/-- C6 witness: concrete instances of both halves — from an unset region,
the first completion carrying us-east-1 stores it; and once the region is
us-east-1, a later completion reporting eu-west-1 does not overwrite it. -/
theorem c6_witness :
    (Update env0 0 c6empty (Msg.albDataLoaded [] none "us-east-1")).1.region = "us-east-1" ∧
    (applyMsgs env0 0 c6m [Msg.albDataLoaded [] none "eu-west-1"]).region = c6m.region :=
  ⟨(c6_region_first_writer_wins env0 0 c6empty
      (Msg.albDataLoaded [] none "us-east-1") []).2.1 rfl (by decide),
    (c6_region_first_writer_wins env0 0 c6m (Msg.albDataLoaded [] none "eu-west-1")
      [Msg.albDataLoaded [] none "eu-west-1"]).2.2 (by decide)⟩

/-- Next-tab step: activeTab advances by one modulo the tab count and the
tab list is unchanged. -/
theorem tabNext_step (env : Env) (now : Nat) (m : Model) :
    (Update env now m (.key "tab")).1.activeTab = (m.activeTab + 1) % m.tabs.length ∧
    (Update env now m (.key "tab")).1.tabs = m.tabs := by
  rw [update_key_tab]
  exact ⟨rfl, rfl⟩

/-- Previous-tab step: activeTab recedes by one modulo the tab count and
the tab list is unchanged. -/
theorem tabPrev_step (env : Env) (now : Nat) (m : Model) :
    (Update env now m (.key "shift+tab")).1.activeTab
      = (m.activeTab + m.tabs.length - 1) % m.tabs.length ∧
    (Update env now m (.key "shift+tab")).1.tabs = m.tabs := by
  rw [update_key_shift_tab]
  exact ⟨rfl, rfl⟩

/-- Iterated next-tab: k presses of the next-tab key advance activeTab by
k modulo the tab count. -/
theorem applyTabs (env : Env) (now : Nat) (k : Nat) :
    ∀ m : Model, m.activeTab < m.tabs.length →
      (applyMsgs env now m (List.replicate k (Msg.key "tab"))).tabs = m.tabs ∧
      (applyMsgs env now m (List.replicate k (Msg.key "tab"))).activeTab
        = (m.activeTab + k) % m.tabs.length := by
  induction k with
  | zero =>
    intro m h
    exact ⟨rfl, (Nat.mod_eq_of_lt h).symm⟩
  | succ k ih =>
    intro m h
    have hn : 0 < m.tabs.length := Nat.lt_of_le_of_lt (Nat.zero_le _) h
    have hstep : applyMsgs env now m (List.replicate (k + 1) (Msg.key "tab")) =
        applyMsgs env now (Update env now m (.key "tab")).1
          (List.replicate k (Msg.key "tab")) := by
      rw [List.replicate_succ]
      rfl
    have h1 : (Update env now m (.key "tab")).1.activeTab
        < (Update env now m (.key "tab")).1.tabs.length := by
      rw [(tabNext_step env now m).1, (tabNext_step env now m).2]
      exact Nat.mod_lt _ hn
    obtain ⟨ht, ha⟩ := ih (Update env now m (.key "tab")).1 h1
    constructor
    · rw [hstep, ht, (tabNext_step env now m).2]
    · rw [hstep, ha, (tabNext_step env now m).1, (tabNext_step env now m).2, Nat.mod_add_mod]
      congr 1
      omega

/-- Previous-tab arithmetic undoes next-tab arithmetic below the modulus. -/
theorem nat_prev_next (t n : Nat) (h : t < n) : ((t + 1) % n + n - 1) % n = t := by
  rcases Nat.lt_or_ge (t + 1) n with h1 | h1
  · rw [Nat.mod_eq_of_lt h1, show t + 1 + n - 1 = t + n from by omega, Nat.add_mod_right]
    exact Nat.mod_eq_of_lt h
  · have he : t + 1 = n := Nat.le_antisymm (Nat.succ_le_of_lt h) h1
    rw [← he, Nat.mod_self, show 0 + (t + 1) - 1 = t from by omega]
    exact Nat.mod_eq_of_lt (Nat.lt_succ_self t)

/-- Next-tab arithmetic undoes previous-tab arithmetic below the modulus. -/
theorem nat_next_prev (t n : Nat) (h : t < n) : ((t + n - 1) % n + 1) % n = t := by
  cases t with
  | zero =>
    have hn : 0 < n := h
    rw [show 0 + n - 1 = n - 1 from by omega,
      Nat.mod_eq_of_lt (by omega : n - 1 < n),
      show n - 1 + 1 = n from by omega, Nat.mod_self]
  | succ t0 =>
    have ht0 : t0 < n := Nat.lt_of_succ_lt h
    rw [show t0 + 1 + n - 1 = t0 + n from by omega, Nat.add_mod_right,
      Nat.mod_eq_of_lt ht0]
    exact Nat.mod_eq_of_lt h

/-- C7: tab cycling laws. The tab list built at startup has one tab per
enabled family plus the overview; pressing next-tab a full tab count of
times returns activeTab to its start, and next-tab and previous-tab undo
one another in either order, wraparound included. -/
theorem c7_tab_cycling (env : Env) (now : Nat) (m : Model) (a r e c s : Bool) (reg : String)
    (h : m.activeTab < m.tabs.length) :
    (NewModel a r e c s reg).tabs.length =
      ((cond a 1 0) + (cond r 1 0) + (cond e 1 0) + (cond c 1 0) + (cond s 1 0)) + 1 ∧
    (applyMsgs env now m (List.replicate m.tabs.length (Msg.key "tab"))).activeTab
      = m.activeTab ∧
    (applyMsgs env now m [Msg.key "tab", Msg.key "shift+tab"]).activeTab = m.activeTab ∧
    (applyMsgs env now m [Msg.key "shift+tab", Msg.key "tab"]).activeTab = m.activeTab := by
  have hn : 0 < m.tabs.length := Nat.lt_of_le_of_lt (Nat.zero_le _) h
  refine ⟨?_, ?_, ?_, ?_⟩
  · cases a <;> cases r <;> cases e <;> cases c <;> cases s <;> rfl
  · rw [(applyTabs env now m.tabs.length m h).2, Nat.add_mod_right]
    exact Nat.mod_eq_of_lt h
  · have hstep : applyMsgs env now m [Msg.key "tab", Msg.key "shift+tab"] =
        (Update env now (Update env now m (.key "tab")).1 (.key "shift+tab")).1 := rfl
    rw [hstep, (tabPrev_step env now _).1, (tabNext_step env now m).1,
      (tabNext_step env now m).2]
    exact nat_prev_next m.activeTab m.tabs.length h
  · have hstep : applyMsgs env now m [Msg.key "shift+tab", Msg.key "tab"] =
        (Update env now (Update env now m (.key "shift+tab")).1 (.key "tab")).1 := rfl
    rw [hstep, (tabNext_step env now _).1, (tabPrev_step env now m).1,
      (tabPrev_step env now m).2]
    exact nat_next_prev m.activeTab m.tabs.length h

/-- C7 input for the witness: ALB and RDS enabled (three tabs), active tab
on the last tab, so both cycling directions exercise wraparound. -/
def c7m : Model := { NewModel true true false false false "" with activeTab := 2 }

/-- C7 witness: concrete instance of the cycling laws at three tabs. -/
theorem c7_witness :
    c7m.activeTab < c7m.tabs.length ∧
    ((NewModel true true false false false "").tabs.length =
      ((cond true 1 0) + (cond true 1 0) + (cond false 1 0) + (cond false 1 0)
        + (cond false 1 0)) + 1 ∧
    (applyMsgs env0 0 c7m (List.replicate c7m.tabs.length (Msg.key "tab"))).activeTab
      = c7m.activeTab ∧
    (applyMsgs env0 0 c7m [Msg.key "tab", Msg.key "shift+tab"]).activeTab = c7m.activeTab ∧
    (applyMsgs env0 0 c7m [Msg.key "shift+tab", Msg.key "tab"]).activeTab = c7m.activeTab) :=
  ⟨by decide, c7_tab_cycling env0 0 c7m true true false false false "" (by decide)⟩

/-- C5 startup state: only ALB enabled. -/
def c5Start : Model := NewModel true false false false false ""

/-- C5 state after one successful fetch of five records. -/
def c5AfterSuccess : Model :=
  applyMsgs env0 0 c5Start [Msg.albDataLoaded fiveLbs none "us-east-1"]

/-- C5 state after the success followed by a failed refresh (the failed
completion carries the nil record list produced by loadALBData on error). -/
def c5AfterFailure : Model :=
  applyMsgs env0 0 c5Start
    [Msg.albDataLoaded fiveLbs none "us-east-1",
     Msg.albDataLoaded [] (some "refresh failed") ""]

/-- C5: the fallback claim is false. After a success with five records and
then a failed refresh, the ALB detail tab renders exactly the bare error
text — the previously fetched records were cleared by the failed
completion and the detail listing (the FormatLoadBalancers output, tagged
ALB-DETAIL under the marker formatters) does not occur anywhere in the
rendered content. -/
theorem c5_counterexample :
    c5AfterSuccess.loadBalancers = fiveLbs ∧
    c5AfterFailure.loadBalancers = [] ∧
    renderALB env0 c5AfterFailure = "Error loading ALB data: refresh failed" ∧
    ¬ occursIn "ALB-DETAIL" (renderALB env0 c5AfterFailure) := by
  refine ⟨rfl, rfl, rfl, ?_⟩
  intro hocc
  have hseg := listHasSegment_of_occursIn _ _ hocc
  revert hseg
  decide

/-- C5 (amended): the ALB detail tab shows the loading indicator whenever
the family is loading, regardless of any prior result; the bare error
text whenever the family is not loading and the latest attempt failed,
regardless of any prior result (which the failed completion has in fact
replaced with the empty list); and the detail listing of the stored
records only when neither holds — in particular a success followed by a
failed refresh renders only the error. -/
theorem c5_amended (env : Env) (now : Nat) (m : Model)
    (recs : List LoadBalancerSummary) (reg reg2 e : String) :
    (m.loadingALB = true → renderALB env m = m.spinner ++ " Loading ALB data...") ∧
    (m.loadingALB = false → ∀ er, m.albErr = some er →
      renderALB env m = "Error loading ALB data: " ++ er) ∧
    (m.loadingALB = false → m.albErr = none →
      renderALB env m = env.fmt.FormatLoadBalancers m.loadBalancers) ∧
    (applyMsgs env now m [Msg.albDataLoaded recs none reg,
      Msg.albDataLoaded [] (some e) reg2]).loadBalancers = [] ∧
    renderALB env (applyMsgs env now m [Msg.albDataLoaded recs none reg,
      Msg.albDataLoaded [] (some e) reg2]) = "Error loading ALB data: " ++ e := by
  refine ⟨?_, ?_, ?_, rfl, rfl⟩
  · intro h
    simp [renderALB, h]
  · intro h er her
    simp [renderALB, h, her]
  · intro h her
    simp [renderALB, h, her]

/-- C5 witness: at the initial ALB-enabled model the family is loading and
the detail tab renders the loading indicator. -/
theorem c5_witness :
    c5Start.loadingALB = true ∧
    renderALB env0 c5Start = c5Start.spinner ++ " Loading ALB data..." :=
  ⟨rfl, (c5_amended env0 0 c5Start [] "" "" "e").1 rfl⟩

/-- C4 counterexample state: ALB succeeded with five records, RDS failed
with throttled, EC2 still loading (all three enabled). -/
def c4State : Model :=
  { NewModel true true true false false "" with
    loadingALB := false
    loadingRDS := false
    loadBalancers := fiveLbs
    rdsErr := some "throttled" }

/-- C4: the per-family composition claim is false. With ALB succeeded (five
records), RDS failed with throttled and EC2 still loading, the Overview tab
is exactly the global loading line: it contains neither the ALB summary
(tagged ALB-SUMMARY by the marker formatters) nor the RDS error text, so
the three per-family pieces are not shown simultaneously. -/
theorem c4_counterexample :
    c4State.showALB = true ∧ c4State.albErr = none ∧ c4State.loadBalancers = fiveLbs ∧
    c4State.showRDS = true ∧ c4State.rdsErr = some "throttled" ∧
    c4State.showEC2 = true ∧ c4State.loadingEC2 = true ∧
    renderOverview env0 c4State = spinnerMiniDot ++ " Loading AWS resources..." ∧
    ¬ occursIn "ALB-SUMMARY" (renderOverview env0 c4State) ∧
    ¬ occursIn "throttled" (renderOverview env0 c4State) := by
  refine ⟨rfl, rfl, rfl, rfl, rfl, rfl, rfl, rfl, ?_, ?_⟩ <;>
  · intro hocc
    have hseg := listHasSegment_of_occursIn _ _ hocc
    revert hseg
    decide

/-- C4 (amended): if any enabled family among ALB, RDS, EC2 is loading,
the Overview tab is only the global loading indicator; otherwise it
contains, for each enabled family, its error line when the latest attempt
failed and its one-line summary otherwise — with no per-family loading
indicator (an ECS or SQS family still loading contributes its summary of
current data, since those lines carry no loading check). -/
theorem c4_amended (env : Env) (m : Model) :
    (((m.loadingALB && m.showALB) || (m.loadingRDS && m.showRDS)
        || (m.loadingEC2 && m.showEC2)) = true →
      renderOverview env m = m.spinner ++ " Loading AWS resources...") ∧
    (((m.loadingALB && m.showALB) || (m.loadingRDS && m.showRDS)
        || (m.loadingEC2 && m.showEC2)) = false →
      (m.showALB = true →
        (∀ e, m.albErr = some e →
          occursIn ("❌ Load Balancer Error: " ++ e) (renderOverview env m)) ∧
        (m.albErr = none →
          occursIn ("✅ Load Balancers: " ++ env.fmt.GetLoadBalancersSummary m.loadBalancers)
            (renderOverview env m))) ∧
      (m.showRDS = true →
        (∀ e, m.rdsErr = some e →
          occursIn ("❌ RDS Error: " ++ e) (renderOverview env m)) ∧
        (m.rdsErr = none →
          occursIn ("✅ RDS Instances: " ++ env.fmt.GetDBInstancesSummary m.dbInstances)
            (renderOverview env m))) ∧
      (m.showEC2 = true →
        (∀ e, m.ec2Err = some e →
          occursIn ("❌ EC2 Error: " ++ e) (renderOverview env m)) ∧
        (m.ec2Err = none →
          occursIn ("✅ EC2 Instances: " ++ env.fmt.GetInstancesSummary m.ec2Instances)
            (renderOverview env m))) ∧
      (m.showECS = true →
        (∀ e, m.ecsErr = some e →
          occursIn ("❌ ECS Error: " ++ e) (renderOverview env m)) ∧
        (m.ecsErr = none →
          occursIn ("✅ ECS Services: " ++ env.fmt.GetServicesSummary m.ecsServices)
            (renderOverview env m))) ∧
      (m.showSQS = true →
        (∀ e, m.sqsErr = some e →
          occursIn ("❌ SQS Error: " ++ e) (renderOverview env m)) ∧
        (m.sqsErr = none →
          occursIn ("✅ SQS Queues: " ++ env.fmt.GetQueuesSummary m.sqsQueues)
            (renderOverview env m)))) := by
  constructor
  · intro hgate
    simp [renderOverview, hgate]
  · intro hgate
    have hform : renderOverview env m =
        overviewHeader env m ++ albOverviewLine env m ++ rdsOverviewLine env m
          ++ ec2OverviewLine env m ++ ecsOverviewLine env m ++ sqsOverviewLine env m
          ++ overviewNoServicesHint m := by
      simp [renderOverview, hgate]
    rw [hform]
    refine ⟨?_, ?_, ?_, ?_, ?_⟩
    · intro hshow
      constructor
      · intro e herr
        have hblk : albOverviewLine env m = ("❌ Load Balancer Error: " ++ e) ++ "\n\n" := by
          simp [albOverviewLine, hshow, herr, String.append_assoc]
        apply occursIn_append_right
        apply occursIn_append_right
        apply occursIn_append_right
        apply occursIn_append_right
        apply occursIn_append_right
        apply occursIn_append_left
        rw [hblk]
        exact occursIn_append_right _ _ _ (occursIn_self _)
      · intro herr
        have hblk : albOverviewLine env m =
            ("✅ Load Balancers: " ++ env.fmt.GetLoadBalancersSummary m.loadBalancers)
              ++ "\n\n" := by
          simp [albOverviewLine, hshow, herr, String.append_assoc]
        apply occursIn_append_right
        apply occursIn_append_right
        apply occursIn_append_right
        apply occursIn_append_right
        apply occursIn_append_right
        apply occursIn_append_left
        rw [hblk]
        exact occursIn_append_right _ _ _ (occursIn_self _)
    · intro hshow
      constructor
      · intro e herr
        have hblk : rdsOverviewLine env m = ("❌ RDS Error: " ++ e) ++ "\n\n" := by
          simp [rdsOverviewLine, hshow, herr, String.append_assoc]
        apply occursIn_append_right
        apply occursIn_append_right
        apply occursIn_append_right
        apply occursIn_append_right
        apply occursIn_append_left
        rw [hblk]
        exact occursIn_append_right _ _ _ (occursIn_self _)
      · intro herr
        have hblk : rdsOverviewLine env m =
            ("✅ RDS Instances: " ++ env.fmt.GetDBInstancesSummary m.dbInstances)
              ++ "\n\n" := by
          simp [rdsOverviewLine, hshow, herr, String.append_assoc]
        apply occursIn_append_right
        apply occursIn_append_right
        apply occursIn_append_right
        apply occursIn_append_right
        apply occursIn_append_left
        rw [hblk]
        exact occursIn_append_right _ _ _ (occursIn_self _)
    · intro hshow
      constructor
      · intro e herr
        have hblk : ec2OverviewLine env m = ("❌ EC2 Error: " ++ e) ++ "\n\n" := by
          simp [ec2OverviewLine, hshow, herr, String.append_assoc]
        apply occursIn_append_right
        apply occursIn_append_right
        apply occursIn_append_right
        apply occursIn_append_left
        rw [hblk]
        exact occursIn_append_right _ _ _ (occursIn_self _)
      · intro herr
        have hblk : ec2OverviewLine env m =
            ("✅ EC2 Instances: " ++ env.fmt.GetInstancesSummary m.ec2Instances)
              ++ "\n\n" := by
          simp [ec2OverviewLine, hshow, herr, String.append_assoc]
        apply occursIn_append_right
        apply occursIn_append_right
        apply occursIn_append_right
        apply occursIn_append_left
        rw [hblk]
        exact occursIn_append_right _ _ _ (occursIn_self _)
    · intro hshow
      constructor
      · intro e herr
        have hblk : ecsOverviewLine env m = ("❌ ECS Error: " ++ e) ++ "\n\n" := by
          simp [ecsOverviewLine, hshow, herr, String.append_assoc]
        apply occursIn_append_right
        apply occursIn_append_right
        apply occursIn_append_left
        rw [hblk]
        exact occursIn_append_right _ _ _ (occursIn_self _)
      · intro herr
        have hblk : ecsOverviewLine env m =
            ("✅ ECS Services: " ++ env.fmt.GetServicesSummary m.ecsServices)
              ++ "\n\n" := by
          simp [ecsOverviewLine, hshow, herr, String.append_assoc]
        apply occursIn_append_right
        apply occursIn_append_right
        apply occursIn_append_left
        rw [hblk]
        exact occursIn_append_right _ _ _ (occursIn_self _)
    · intro hshow
      constructor
      · intro e herr
        have hblk : sqsOverviewLine env m = ("❌ SQS Error: " ++ e) ++ "\n\n" := by
          simp [sqsOverviewLine, hshow, herr, String.append_assoc]
        apply occursIn_append_right
        apply occursIn_append_left
        rw [hblk]
        exact occursIn_append_right _ _ _ (occursIn_self _)
      · intro herr
        have hblk : sqsOverviewLine env m =
            ("✅ SQS Queues: " ++ env.fmt.GetQueuesSummary m.sqsQueues) ++ "\n\n" := by
          simp [sqsOverviewLine, hshow, herr, String.append_assoc]
        apply occursIn_append_right
        apply occursIn_append_left
        rw [hblk]
        exact occursIn_append_right _ _ _ (occursIn_self _)

/-- C4 amended-claim witness state: same scenario with the EC2 fetch also
resolved, so the gate is off. -/
def c4Done : Model := { c4State with loadingEC2 := false }

/-- C4 witness: with no gating family loading, the overview contains the
ALB summary line and the RDS error line. -/
theorem c4_witness :
    occursIn ("✅ Load Balancers: " ++ env0.fmt.GetLoadBalancersSummary c4Done.loadBalancers)
      (renderOverview env0 c4Done) ∧
    occursIn ("❌ RDS Error: " ++ "throttled") (renderOverview env0 c4Done) := by
  have h := (c4_amended env0 c4Done).2 (by decide)
  exact ⟨(h.1 rfl).2 rfl, ((h.2.1 rfl).1 "throttled" rfl)⟩

/-- C9: first-error fan-out. Given a successful load-balancer listing, the
fan-out has a failing member exactly when its error list (in launch order)
is non-empty; whenever that list starts with an error e, GetLoadBalancers
returns error e with no records, discarding every successfully fetched
sibling; and only when every per-item sub-fetch succeeds does it return
the record list. -/
theorem c9_first_error_fanout (cl : Elbv2Client) (lbs : List AwsLoadBalancer)
    (hok : cl.DescribeLoadBalancers = .ok lbs) :
    ((∃ lb ∈ lbs, ∃ e, processLoadBalancer cl lb = .error e) ↔
      fanoutErrors (lbs.map (processLoadBalancer cl)) ≠ []) ∧
    (∀ e rest, fanoutErrors (lbs.map (processLoadBalancer cl)) = e :: rest →
      GetLoadBalancers cl = .error e) ∧
    (fanoutErrors (lbs.map (processLoadBalancer cl)) = [] →
      GetLoadBalancers cl = .ok (fanoutRecords (lbs.map (processLoadBalancer cl)))) := by
  refine ⟨⟨?_, ?_⟩, ?_, ?_⟩
  · rintro ⟨lb, hmem, e, he⟩ hnil
    have hin : e ∈ fanoutErrors (lbs.map (processLoadBalancer cl)) := by
      unfold fanoutErrors
      rw [List.mem_filterMap]
      exact ⟨processLoadBalancer cl lb, List.mem_map_of_mem _ hmem, by rw [he]⟩
    rw [hnil] at hin
    exact absurd hin (List.not_mem_nil e)
  · intro hne
    obtain ⟨e, he⟩ := List.exists_mem_of_ne_nil _ hne
    unfold fanoutErrors at he
    rw [List.mem_filterMap] at he
    obtain ⟨res, hres, hmatch⟩ := he
    rw [List.mem_map] at hres
    obtain ⟨lb, hlb, hlbeq⟩ := hres
    refine ⟨lb, hlb, e, ?_⟩
    rw [hlbeq]
    cases res with
    | error e2 =>
      simp only [Option.some.injEq] at hmatch
      rw [hmatch]
    | ok s => simp at hmatch
  · intro e rest heq
    unfold GetLoadBalancers
    rw [hok]
    simp only
    rw [heq]
  · intro heq
    unfold GetLoadBalancers
    rw [hok]
    simp only
    rw [heq]

/-- Sample load balancer A for the C9 witness. -/
def lbA : AwsLoadBalancer :=
  { LoadBalancerArn := "arnA", LoadBalancerName := "lbA", DNSName := "dnsA" }

/-- Sample load balancer B for the C9 witness. -/
def lbB : AwsLoadBalancer :=
  { LoadBalancerArn := "arnB", LoadBalancerName := "lbB", DNSName := "dnsB" }

/-- Target group behind load balancer A. -/
def tgA : AwsTargetGroup := { TargetGroupArn := "tgA-arn", TargetGroupName := "tgA" }

/-- Target group behind load balancer B. -/
def tgB : AwsTargetGroup := { TargetGroupArn := "tgB-arn", TargetGroupName := "tgB" }

/-- Healthy target description behind target group A. -/
def thd0 : AwsTargetHealthDescription :=
  { Target := { Id := "i-1", Port := some 80 }
    TargetHealth := { State := "healthy", Reason := "" } }

/-- Concrete remote API for the C9 witness: two load balancers, the health
query for the second target group fails. -/
def cl0 : Elbv2Client :=
  { DescribeLoadBalancers := .ok [lbA, lbB]
    DescribeTargetGroups := fun arn => if arn == "arnA" then .ok [tgA] else .ok [tgB]
    DescribeTargetHealth := fun arn =>
      if arn == "tgA-arn" then .ok [thd0] else .error "throttled" }

/-- Summary that the successful sibling A produces on its own. -/
def lbAResult : LoadBalancerSummary :=
  { Name := "lbA"
    DNSName := "dnsA"
    TargetGroups :=
      [{ Name := "tgA"
         ARN := "tgA-arn"
         Targets := [{ ID := "i-1", Port := 80, Status := "healthy", Reason := "" }] }] }

/-- C9 witness: load balancer A fetches successfully, yet the whole fetch
returns the error from load balancer B with no records, discarding the
successful sibling. -/
theorem c9_witness :
    processLoadBalancer cl0 lbA = .ok lbAResult ∧
    GetLoadBalancers cl0 =
      .error "failed to describe target health for TG tgB: throttled" :=
  ⟨rfl,
    (c9_first_error_fanout cl0 [lbA, lbB] rfl).2.1
      "failed to describe target health for TG tgB: throttled" [] (by decide)⟩
